import Mathlib

/-!
Shallow embedding of the Lab Pi node runtime from remote_lab_pi
(src/lab_pi_app.py, src/lab_pi_session_poller.py, src/audio_capture.py).

Network calls and GPIO writes are modelled by explicit parameters: a
heartbeat or registration outcome is passed in as data, and GPIO behaviour
is a pair of booleans (is lgpio available with a claimed pin, does the
gpio write raise).  Every state-mutating code path of the Python source is
translated branch by branch; side effects that leave the process (pin
writes, HTTP posts) are collected in an effect list so that theorems can
count hardware calls.
-/

namespace RemoteLabPi

/-- GPIO environment: `available` models `lgpio and RELAY_PIN` being truthy
(the library imported and a pin configured); `writeOk` models whether
`lgpio.gpio_write` returns normally (`false` = it raises). -/
structure Gpio where
  available : Bool
  writeOk : Bool
deriving Repr, DecidableEq

/-- Externally visible side effects of one operation, in program order. -/
inductive Effect
  | pinWrite (level : Nat)
  | masterEndNotify (key : String)
  | hbPost
  | registerReq
deriving Repr, DecidableEq

/-- The session payload delivered by the Master (`result['session']` in a
heartbeat response, or the JSON body of a session-start push).  Both fields
are read with `.get`, so each may be absent. -/
structure SessionData where
  session_key : Option String
  user_email : Option String
deriving Repr, DecidableEq

/-- `LabPiState` from lab_pi_app.py: the mutable fields touched by the
coordination loops.  Timestamps are seconds as `Nat`. -/
structure LabPiState where
  lab_pi_id : String
  registered : Bool
  lab_pi_db_id : Option Nat
  registered_at : Option Nat
  session_active : Bool
  current_session_key : Option String
  session_start_time : Option Nat
  user_email : Option String
  hardware_ready : Bool
  relay_state : Bool
  last_heartbeat_sent : Option Nat
  heartbeat_failures : Nat
deriving Repr, DecidableEq

/-- `LabPiState.__init__`: fresh state at process start. -/
def initState (labId : String) : LabPiState :=
  { lab_pi_id := labId
    registered := false
    lab_pi_db_id := none
    registered_at := none
    session_active := false
    current_session_key := none
    session_start_time := none
    user_email := none
    hardware_ready := false
    relay_state := false
    last_heartbeat_sent := none
    heartbeat_failures := 0 }

/-- `MasterPiCommunicator.power_on_hardware`: writes level 1 to the relay
pin when lgpio is present; on success records `relay_state = True`; a
raising write is caught and leaves the state unchanged. -/
def power_on_hardware (g : Gpio) (s : LabPiState) : LabPiState × List Effect :=
  if g.available then
    (if g.writeOk then { s with relay_state := true } else s, [Effect.pinWrite 1])
  else (s, [])

/-- `MasterPiCommunicator.power_off_hardware`: writes level 0 to the relay
pin when lgpio is present; on success records `relay_state = False`; a
raising write is caught and leaves the state unchanged. -/
def power_off_hardware (g : Gpio) (s : LabPiState) : LabPiState × List Effect :=
  if g.available then
    (if g.writeOk then { s with relay_state := false } else s, [Effect.pinWrite 0])
  else (s, [])

/-- `MasterPiCommunicator.register`: posts the identity; on HTTP 200 stores
the returned record id and sets `registered`; any other outcome leaves the
state unchanged and returns failure.  `regResult = some dbId` models a 200
response carrying `dbId`; `none` models a non-200 response or transport
error. -/
def register (now : Nat) (regResult : Option Nat) (s : LabPiState) :
    LabPiState × List Effect × Bool :=
  match regResult with
  | some dbId =>
      ({ s with lab_pi_db_id := some dbId, registered := true,
                registered_at := some now }, [Effect.registerReq], true)
  | none => (s, [Effect.registerReq], false)

/-- `MasterPiCommunicator.handle_new_session`: installs the assignment
(`session_key` and `user_email` read with `.get`, so possibly absent),
stamps `session_start_time = now`, then powers on the hardware. -/
def handle_new_session (g : Gpio) (now : Nat) (d : SessionData) (s : LabPiState) :
    LabPiState × List Effect :=
  power_on_hardware g
    { s with session_active := true
             current_session_key := d.session_key
             session_start_time := some now
             user_email := d.user_email }

/-- `MasterPiCommunicator.heartbeat`: `resp = some ns` models an HTTP 200
response whose optional `new_session`/`session` payload is `ns`; `resp =
none` models a non-200 response or transport error.  Success records the
send time, zeroes the failure counter and absorbs a delivered assignment;
failure increments the counter. -/
def heartbeat (g : Gpio) (now : Nat) (resp : Option (Option SessionData))
    (s : LabPiState) : LabPiState × List Effect × Bool :=
  match resp with
  | some ns =>
      let s1 := { s with last_heartbeat_sent := some now, heartbeat_failures := 0 }
      match ns with
      | some d =>
          let r := handle_new_session g now d s1
          (r.1, Effect.hbPost :: r.2, true)
      | none => (s1, [Effect.hbPost], true)
  | none =>
      ({ s with heartbeat_failures := s.heartbeat_failures + 1 }, [Effect.hbPost], false)

/-- One iteration of `heartbeat_thread`: if registered, send a heartbeat;
on failure, once the counter has reached 5, drop registration and call
`register` within the same iteration; if not registered, just try to
register. -/
def heartbeat_thread_iter (g : Gpio) (now : Nat) (resp : Option (Option SessionData))
    (regResult : Option Nat) (s : LabPiState) : LabPiState × List Effect :=
  if s.registered then
    let r := heartbeat g now resp s
    if r.2.2 then (r.1, r.2.1)
    else if 5 ≤ r.1.heartbeat_failures then
      let r2 := register now regResult { r.1 with registered := false }
      (r2.1, r.2.1 ++ r2.2.1)
    else (r.1, r.2.1)
  else
    let r := register now regResult s
    (r.1, r.2.1)

/-- The helper `end_session` of lab_pi_app.py: guarded on
`current_session_key` being truthy; when set, notifies the Master
(best-effort), powers off the hardware, and clears all session fields.
When the key is `None` nothing at all happens. -/
def end_session (g : Gpio) (s : LabPiState) : LabPiState × List Effect :=
  match s.current_session_key with
  | none => (s, [])
  | some key =>
      let r := power_off_hardware g s
      ({ r.1 with session_active := false
                  current_session_key := none
                  session_start_time := none
                  user_email := none },
       Effect.masterEndNotify key :: r.2)

/-- One iteration of `session_monitor_thread`: when a session is active and
has a start time, and more than 60*60 seconds have elapsed, invoke
`end_session`.  Elapsed time uses truncated subtraction, which agrees with
the Python comparison for the strict threshold test. -/
def session_monitor_tick (g : Gpio) (now : Nat) (s : LabPiState) :
    LabPiState × List Effect :=
  if s.session_active ∧ s.session_start_time.isSome then
    match s.session_start_time with
    | some t0 => if 60 * 60 < now - t0 then end_session g s else (s, [])
    | none => (s, [])
  else (s, [])

/-- Outcome returned to an HTTP caller. -/
inductive ApiResult
  | ok
  | err (code : Nat)
deriving Repr, DecidableEq

/-- Route `/api/session/end` (`api_end_session`): 400 when no session is
active, otherwise runs `end_session` and reports success. -/
def api_end_session (g : Gpio) (s : LabPiState) :
    LabPiState × List Effect × ApiResult :=
  if s.session_active then
    let r := end_session g s
    (r.1, r.2, ApiResult.ok)
  else (s, [], ApiResult.err 400)

/-- Route `/api/lab-pi/session-start` (`lab_pi_session_start`): rejects
with 401 when the X-Lab-Pi-Id header does not match this node; otherwise
installs the session fields, powers on the hardware and reports success. -/
def lab_pi_session_start (g : Gpio) (now : Nat) (headerId : String)
    (key email : Option String) (s : LabPiState) :
    LabPiState × List Effect × ApiResult :=
  if headerId = s.lab_pi_id then
    let r := power_on_hardware g
      { s with session_active := true
               current_session_key := key
               session_start_time := some now
               user_email := email }
    (r.1, r.2, ApiResult.ok)
  else (s, [], ApiResult.err 401)

/-- Route `/api/lab-pi/session-end` (`lab_pi_session_end`): with no guard
at all, clears every session field, powers off the hardware and reports
success.  The posted session key is only logged. -/
def lab_pi_session_end (g : Gpio) (_key : Option String) (s : LabPiState) :
    LabPiState × List Effect × ApiResult :=
  let r := power_off_hardware g
    { s with session_active := false
             current_session_key := none
             session_start_time := none
             user_email := none }
  (r.1, r.2, ApiResult.ok)

/-- Route `/api/relay/on` (`relay_on`): 403 without an active session;
with lgpio, a successful write records `relay_state = True`, a raising
write returns 500 with the state unchanged; without lgpio the success is
simulated. -/
def api_relay_on (g : Gpio) (s : LabPiState) :
    LabPiState × List Effect × ApiResult :=
  if s.session_active then
    if g.available then
      if g.writeOk then
        ({ s with relay_state := true }, [Effect.pinWrite 1], ApiResult.ok)
      else (s, [Effect.pinWrite 1], ApiResult.err 500)
    else (s, [], ApiResult.ok)
  else (s, [], ApiResult.err 403)

/-- Route `/api/relay/off` (`relay_off`): 403 without an active session;
with lgpio, a successful write records `relay_state = False`, a raising
write returns 500 with the state unchanged; without lgpio the success is
simulated. -/
def api_relay_off (g : Gpio) (s : LabPiState) :
    LabPiState × List Effect × ApiResult :=
  if s.session_active then
    if g.available then
      if g.writeOk then
        ({ s with relay_state := false }, [Effect.pinWrite 0], ApiResult.ok)
      else (s, [Effect.pinWrite 0], ApiResult.err 500)
    else (s, [], ApiResult.ok)
  else (s, [], ApiResult.err 403)

/-- State of the standalone poll-fallback process
(lab_pi_session_poller.py, class SessionPoller).  It keeps its own session
memory and hardware flag and never touches `LabPiState`. -/
structure PollerState where
  current_session_key : Option String
  session_end_time : Option Nat
  hardware_running : Bool
deriving Repr, DecidableEq

/-- `SessionPoller.__init__` fields. -/
def pollerInit : PollerState :=
  { current_session_key := none, session_end_time := none, hardware_running := false }

namespace SessionPoller

/-- `SessionPoller.start_hardware`: when not already running, calls the
module-level `relay_on`, which writes level 0 to the pin (the poller is
active-low).  A raising write propagates out before `hardware_running` is
set; with no GPIO handle the flag is still set. -/
def start_hardware (g : Gpio) (p : PollerState) : PollerState × List Effect :=
  if p.hardware_running then (p, [])
  else if g.available then
    if g.writeOk then ({ p with hardware_running := true }, [Effect.pinWrite 0])
    else (p, [Effect.pinWrite 0])
  else ({ p with hardware_running := true }, [])

/-- `SessionPoller.stop_hardware`: when running, calls the module-level
`relay_off`, which writes level 1 to the pin; then clears the remembered
session key and end time.  A raising write propagates out before anything
is cleared. -/
def stop_hardware (g : Gpio) (p : PollerState) : PollerState × List Effect :=
  if p.hardware_running then
    if g.available then
      if g.writeOk then
        ({ p with hardware_running := false, current_session_key := none,
                  session_end_time := none }, [Effect.pinWrite 1])
      else (p, [Effect.pinWrite 1])
    else ({ p with hardware_running := false, current_session_key := none,
                   session_end_time := none }, [])
  else ({ p with current_session_key := none, session_end_time := none }, [])

end SessionPoller

/-- One scheduling event of the node process (plus the poll-fallback
process sharing the machine).  Each event carries the data its network
call returns and whether its GPIO write, if any, returns normally. -/
inductive Event
  | hbIter (now : Nat) (resp : Option (Option SessionData)) (regResult : Option Nat)
      (writeOk : Bool)
  | monitorTick (now : Nat) (writeOk : Bool)
  | startPush (now : Nat) (headerId : String) (key email : Option String) (writeOk : Bool)
  | endPush (key : Option String) (writeOk : Bool)
  | apiEnd (writeOk : Bool)
  | relayOnReq (writeOk : Bool)
  | relayOffReq (writeOk : Bool)
  | pollStart (writeOk : Bool)
  | pollStop (writeOk : Bool)
deriving Repr, DecidableEq

/-- The whole system: the node state plus the poll-fallback process. -/
def Sys : Type := LabPiState × PollerState

/-- One atomic step of the system.  `avail` (lgpio importable, a pin
claimed) is fixed for the life of the process. -/
def step (avail : Bool) (e : Event) (st : Sys) : Sys × List Effect :=
  match e with
  | .hbIter now resp reg ok =>
      let r := heartbeat_thread_iter ⟨avail, ok⟩ now resp reg st.1
      ((r.1, st.2), r.2)
  | .monitorTick now ok =>
      let r := session_monitor_tick ⟨avail, ok⟩ now st.1
      ((r.1, st.2), r.2)
  | .startPush now hid key email ok =>
      let r := lab_pi_session_start ⟨avail, ok⟩ now hid key email st.1
      ((r.1, st.2), r.2.1)
  | .endPush key ok =>
      let r := lab_pi_session_end ⟨avail, ok⟩ key st.1
      ((r.1, st.2), r.2.1)
  | .apiEnd ok =>
      let r := api_end_session ⟨avail, ok⟩ st.1
      ((r.1, st.2), r.2.1)
  | .relayOnReq ok =>
      let r := api_relay_on ⟨avail, ok⟩ st.1
      ((r.1, st.2), r.2.1)
  | .relayOffReq ok =>
      let r := api_relay_off ⟨avail, ok⟩ st.1
      ((r.1, st.2), r.2.1)
  | .pollStart ok =>
      let r := SessionPoller.start_hardware ⟨avail, ok⟩ st.2
      ((st.1, r.1), r.2)
  | .pollStop ok =>
      let r := SessionPoller.stop_hardware ⟨avail, ok⟩ st.2
      ((st.1, r.1), r.2)

/-- Run a sequence of events from the fresh process state. -/
def run (avail : Bool) (labId : String) (es : List Event) : Sys :=
  es.foldl (fun st e => (step avail e st).1) (initState labId, pollerInit)

/-- Does this event class call the deenergize path of the node
(`power_off_hardware` or the relay-off endpoint)?  Used to phrase
"every deenergize call succeeds". -/
def isNodeEndEvent : Event → Bool
  | .monitorTick _ _ => true
  | .endPush _ _ => true
  | .apiEnd _ => true
  | .relayOffReq _ => true
  | _ => false

/-- The GPIO-write outcome an event carries. -/
def eventWriteOk : Event → Bool
  | .hbIter _ _ _ ok => ok
  | .monitorTick _ ok => ok
  | .startPush _ _ _ _ ok => ok
  | .endPush _ ok => ok
  | .apiEnd ok => ok
  | .relayOnReq ok => ok
  | .relayOffReq ok => ok
  | .pollStart ok => ok
  | .pollStop ok => ok

/-- Is this event a heartbeat-loop iteration whose heartbeat POST got an
HTTP 200 (a verified successful heartbeat response)? -/
def isHbSuccessEvent : Event → Bool
  | .hbIter _ (some _) _ _ => true
  | _ => false

/-- Number of deenergize pin writes (level 0 on the node relay) in an
effect list. -/
def deenergizeAttempts (l : List Effect) : Nat :=
  l.countP fun e => match e with
    | Effect.pinWrite 0 => true
    | _ => false

namespace AudioCapture

/-- One enqueue attempt of `_capture_loop`: `self.audio_queue.put(frame,
timeout=0.5)` against a `queue.Queue(maxsize=10)` with no consumer active;
when the queue is full the raised `queue.Full` is swallowed and the frame
is discarded.  The queue is a FIFO list, head first. -/
def queue_put (q : List String) (f : String) : List String :=
  if q.length < 10 then q ++ [f] else q

/-- The capture loop run over a stream of encoded frames while the sender
never drains the queue, starting from an empty queue. -/
def capture_run (frames : List String) : List String :=
  frames.foldl queue_put []

/-- One iteration of `_send_loop` on (queue, posted frames): when the
queue is non-empty, take the head with `get()` and attempt one POST with
`netOk` as its outcome; a transport error is swallowed and the frame is
dropped, never re-queued.  An empty queue only sleeps. -/
def send_iter (netOk : Bool) (st : List String × List String) :
    List String × List String :=
  match st.1 with
  | [] => st
  | f :: rest => (rest, if netOk then st.2 ++ [f] else st.2)

/-- The send loop run over a list of per-iteration network outcomes. -/
def send_run (outcomes : List Bool) (st : List String × List String) :
    List String × List String :=
  outcomes.foldl (fun st b => send_iter b st) st

end AudioCapture

/-!
Helper lemmas for the gate-safety invariant.
-/

/-- Induction invariant for gate safety: the relay flag implies an active
session, and without lgpio the relay flag can never be set. -/
def gateInv (avail : Bool) (s : LabPiState) : Prop :=
  (s.relay_state = true → s.session_active = true) ∧
  (avail = false → s.relay_state = false)

theorem power_on_gateInv (avail ok : Bool) (s : LabPiState)
    (hact : s.session_active = true) (h2 : avail = false → s.relay_state = false) :
    gateInv avail (power_on_hardware ⟨avail, ok⟩ s).1 := by
  unfold power_on_hardware gateInv
  cases avail <;> cases ok <;> simp_all

theorem power_off_relay_false (avail : Bool) (s : LabPiState)
    (h2 : avail = false → s.relay_state = false) :
    ((power_off_hardware ⟨avail, true⟩ s).1).relay_state = false := by
  unfold power_off_hardware
  cases avail <;> simp_all

theorem end_session_gateInv (avail : Bool) (s : LabPiState)
    (hinv : gateInv avail s) : gateInv avail (end_session ⟨avail, true⟩ s).1 := by
  unfold end_session
  cases hkey : s.current_session_key with
  | none => simpa using hinv
  | some k =>
      have hrel := power_off_relay_false avail s hinv.2
      unfold gateInv
      simp [hrel]

theorem register_gateInv (avail : Bool) (now : Nat) (reg : Option Nat)
    (s : LabPiState) (hinv : gateInv avail s) :
    gateInv avail (register now reg s).1 := by
  unfold register
  cases reg <;> simpa using hinv

theorem heartbeat_iter_gateInv (avail ok : Bool) (now : Nat)
    (resp : Option (Option SessionData)) (reg : Option Nat) (s : LabPiState)
    (hinv : gateInv avail s) :
    gateInv avail (heartbeat_thread_iter ⟨avail, ok⟩ now resp reg s).1 := by
  unfold heartbeat_thread_iter heartbeat handle_new_session
  cases hreg : s.registered
  · simpa using register_gateInv avail now reg s hinv
  · cases resp with
    | none =>
        by_cases h5 : 5 ≤ s.heartbeat_failures + 1
        · simpa [h5] using register_gateInv avail now reg
            { s with heartbeat_failures := s.heartbeat_failures + 1, registered := false }
            ⟨hinv.1, hinv.2⟩
        · simpa [h5] using hinv
    | some ns =>
        cases ns with
        | none => simpa using hinv
        | some d =>
            simpa using power_on_gateInv avail ok
              { s with registered := true, last_heartbeat_sent := some now,
                       heartbeat_failures := 0, session_active := true,
                       current_session_key := d.session_key,
                       session_start_time := some now, user_email := d.user_email }
              rfl hinv.2

theorem step_gateInv (avail : Bool) (e : Event) (st : Sys)
    (hok : isNodeEndEvent e = true → eventWriteOk e = true)
    (hinv : gateInv avail st.1) : gateInv avail ((step avail e st).1).1 := by
  cases e with
  | hbIter now resp reg ok =>
      simpa [step] using heartbeat_iter_gateInv avail ok now resp reg st.1 hinv
  | monitorTick now ok =>
      have hok1 : ok = true := hok rfl
      subst hok1
      unfold step session_monitor_tick
      by_cases hguard : st.1.session_active ∧ st.1.session_start_time.isSome
      · simp only [hguard, if_true]
        cases ht : st.1.session_start_time with
        | none => simpa using hinv
        | some t0 =>
            by_cases hel : 60 * 60 < now - t0
            · simpa [hel] using end_session_gateInv avail st.1 hinv
            · simpa [hel] using hinv
      · simpa [hguard] using hinv
  | startPush now hid key email ok =>
      unfold step lab_pi_session_start
      by_cases hid2 : hid = st.1.lab_pi_id
      · simp only [hid2, if_true]
        exact power_on_gateInv avail ok
          { st.1 with session_active := true, current_session_key := key,
                      session_start_time := some now, user_email := email }
          rfl hinv.2
      · simpa [hid2] using hinv
  | endPush key ok =>
      have hok1 : ok = true := hok rfl
      subst hok1
      unfold step lab_pi_session_end
      have hrel := power_off_relay_false avail
        { st.1 with session_active := false, current_session_key := none,
                    session_start_time := none, user_email := none }
        (by simpa using hinv.2)
      exact ⟨fun h => by simp_all, fun _ => hrel⟩
  | apiEnd ok =>
      have hok1 : ok = true := hok rfl
      subst hok1
      unfold step api_end_session
      by_cases hact : st.1.session_active
      · simpa [hact] using end_session_gateInv avail st.1 hinv
      · simpa [hact] using hinv
  | relayOnReq ok =>
      unfold step api_relay_on
      by_cases hact : st.1.session_active
      · cases avail <;> cases ok <;> simp_all [gateInv]
      · simpa [hact] using hinv
  | relayOffReq ok =>
      have hok1 : ok = true := hok rfl
      subst hok1
      unfold step api_relay_off
      by_cases hact : st.1.session_active
      · cases avail <;> simp_all [gateInv]
      · simpa [hact] using hinv
  | pollStart ok =>
      simpa [step] using hinv
  | pollStop ok =>
      simpa [step] using hinv

theorem foldl_gateInv (avail : Bool) (es : List Event) (st : Sys)
    (h : ∀ e ∈ es, isNodeEndEvent e = true → eventWriteOk e = true)
    (hinv : gateInv avail st.1) :
    gateInv avail ((es.foldl (fun st e => (step avail e st).1) st)).1 := by
  induction es generalizing st with
  | nil => simpa using hinv
  | cons e es ih =>
      simp only [List.foldl_cons]
      exact ih _ (fun e' he' => h e' (List.mem_cons_of_mem _ he'))
        (step_gateInv avail e st (h e (List.mem_cons_self _ _)) hinv)

theorem run_gateInv (avail : Bool) (labId : String) (es : List Event)
    (h : ∀ e ∈ es, isNodeEndEvent e = true → eventWriteOk e = true) :
    gateInv avail (run avail labId es).1 := by
  have hbase : gateInv avail (initState labId) := by
    constructor <;> simp [initState]
  exact foldl_gateInv avail es (initState labId, pollerInit) h hbase

/-!
Helper lemmas for the audio pipeline.
-/

theorem capture_foldl_take (fs q : List String) (hq : q.length ≤ 10) :
    fs.foldl AudioCapture.queue_put q = (q ++ fs).take 10 := by
  induction fs generalizing q with
  | nil => simp [List.take_of_length_le hq]
  | cons f fs ih =>
      simp only [List.foldl_cons]
      by_cases h : q.length < 10
      · have hput : AudioCapture.queue_put q f = q ++ [f] := by
          simp [AudioCapture.queue_put, h]
        rw [hput, ih (q ++ [f])
          (by simp only [List.length_append, List.length_cons, List.length_nil]; omega)]
        simp
      · have h10 : q.length = 10 := le_antisymm hq (not_lt.mp h)
        have hput : AudioCapture.queue_put q f = q := by
          simp [AudioCapture.queue_put, h]
        rw [hput, ih q hq]
        calc (q ++ fs).take 10 = q := by
              rw [← h10]; exact List.take_left q fs
          _ = (q ++ f :: fs).take 10 := by
              rw [← h10]; exact (List.take_left q (f :: fs)).symm

theorem send_run_sublist (outcomes : List Bool) (q acc : List String) :
    ∃ p, (AudioCapture.send_run outcomes (q, acc)).2 = acc ++ p ∧ p.Sublist q := by
  induction outcomes generalizing q acc with
  | nil => exact ⟨[], by simp [AudioCapture.send_run], List.nil_sublist q⟩
  | cons b bs ih =>
      cases q with
      | nil =>
          obtain ⟨p, hp, hs⟩ := ih [] acc
          refine ⟨p, ?_, hs⟩
          simpa [AudioCapture.send_run, AudioCapture.send_iter] using hp
      | cons f rest =>
          cases b with
          | true =>
              obtain ⟨p, hp, hs⟩ := ih rest (acc ++ [f])
              refine ⟨f :: p, ?_, hs.cons₂ f⟩
              have : (AudioCapture.send_run bs (rest, acc ++ [f])).2 = acc ++ (f :: p) := by
                simpa using hp
              simpa [AudioCapture.send_run, AudioCapture.send_iter] using this
          | false =>
              obtain ⟨p, hp, hs⟩ := ih rest acc
              refine ⟨p, ?_, hs.cons f⟩
              simpa [AudioCapture.send_run, AudioCapture.send_iter] using hp

theorem send_run_drain (q : List String) (acc : List String) (outcomes : List Bool)
    (hlen : outcomes.length = q.length) (hall : ∀ b ∈ outcomes, b = true) :
    AudioCapture.send_run outcomes (q, acc) = ([], acc ++ q) := by
  induction q generalizing outcomes acc with
  | nil =>
      cases outcomes with
      | nil => simp [AudioCapture.send_run]
      | cons b bs => simp at hlen
  | cons f rest ih =>
      cases outcomes with
      | nil => simp at hlen
      | cons b bs =>
          have hb : b = true := hall b (List.mem_cons_self b bs)
          subst hb
          have step1 : AudioCapture.send_run (true :: bs) (f :: rest, acc)
              = AudioCapture.send_run bs (rest, acc ++ [f]) := by
            simp [AudioCapture.send_run, AudioCapture.send_iter]
          rw [step1, ih (acc ++ [f]) bs (by simpa using hlen)
                (fun b hb => hall b (List.mem_cons_of_mem _ hb))]
          simp

/-!
Field-preservation helper lemmas.
-/

@[simp] theorem power_on_failures (g : Gpio) (s : LabPiState) :
    ((power_on_hardware g s).1).heartbeat_failures = s.heartbeat_failures := by
  rcases g with ⟨av, ok⟩
  unfold power_on_hardware
  cases av <;> cases ok <;> rfl

@[simp] theorem power_off_failures (g : Gpio) (s : LabPiState) :
    ((power_off_hardware g s).1).heartbeat_failures = s.heartbeat_failures := by
  rcases g with ⟨av, ok⟩
  unfold power_off_hardware
  cases av <;> cases ok <;> rfl

@[simp] theorem end_session_failures (g : Gpio) (s : LabPiState) :
    ((end_session g s).1).heartbeat_failures = s.heartbeat_failures := by
  unfold end_session
  cases s.current_session_key <;> simp

theorem monitor_failures (g : Gpio) (now : Nat) (s : LabPiState) :
    ((session_monitor_tick g now s).1).heartbeat_failures = s.heartbeat_failures := by
  unfold session_monitor_tick
  split
  · split
    · split
      · simp
      · rfl
    · rfl
  · rfl

theorem api_end_failures (g : Gpio) (s : LabPiState) :
    ((api_end_session g s).1).heartbeat_failures = s.heartbeat_failures := by
  unfold api_end_session
  split
  · simp
  · rfl

theorem start_push_failures (g : Gpio) (now : Nat) (hid : String)
    (key email : Option String) (s : LabPiState) :
    ((lab_pi_session_start g now hid key email s).1).heartbeat_failures
      = s.heartbeat_failures := by
  unfold lab_pi_session_start
  split
  · simp
  · rfl

theorem end_push_failures (g : Gpio) (key : Option String) (s : LabPiState) :
    ((lab_pi_session_end g key s).1).heartbeat_failures = s.heartbeat_failures := by
  unfold lab_pi_session_end
  simp

theorem relay_on_failures (g : Gpio) (s : LabPiState) :
    ((api_relay_on g s).1).heartbeat_failures = s.heartbeat_failures := by
  rcases g with ⟨av, ok⟩
  unfold api_relay_on
  cases s.session_active <;> cases av <;> cases ok <;> rfl

theorem relay_off_failures (g : Gpio) (s : LabPiState) :
    ((api_relay_off g s).1).heartbeat_failures = s.heartbeat_failures := by
  rcases g with ⟨av, ok⟩
  unfold api_relay_off
  cases s.session_active <;> cases av <;> cases ok <;> rfl

theorem register_failures (now : Nat) (reg : Option Nat) (s : LabPiState) :
    ((register now reg s).1).heartbeat_failures = s.heartbeat_failures := by
  unfold register
  cases reg <;> rfl

/-- Claim C10: `heartbeat_failures` is reset to 0 exactly by a heartbeat
iteration whose POST gets a verified 200 response (while registered); every
other event of the system leaves the counter unchanged or increments it by
one, so it never decreases otherwise (invariant I3). -/
theorem heartbeat_failures_monotonic (avail : Bool) (e : Event) (st : Sys) :
    (isHbSuccessEvent e = true ∧ st.1.registered = true →
      (((step avail e st).1).1).heartbeat_failures = 0) ∧
    (¬(isHbSuccessEvent e = true ∧ st.1.registered = true) →
      (((step avail e st).1).1).heartbeat_failures = st.1.heartbeat_failures ∨
      (((step avail e st).1).1).heartbeat_failures = st.1.heartbeat_failures + 1) := by
  obtain ⟨s, p⟩ := st
  cases e with
  | hbIter now resp reg ok =>
      cases hreg : s.registered with
      | false =>
          refine ⟨fun h => absurd h.2 (by simp [hreg]), fun _ => Or.inl ?_⟩
          simp [step, heartbeat_thread_iter, hreg, register_failures]
      | true =>
          cases resp with
          | none =>
              refine ⟨fun h => by simp [isHbSuccessEvent] at h, fun _ => Or.inr ?_⟩
              by_cases h5 : 5 ≤ s.heartbeat_failures + 1 <;>
                simp [step, heartbeat_thread_iter, heartbeat, hreg, h5, register_failures]
          | some ns =>
              refine ⟨fun _ => ?_, fun h => absurd ⟨by simp [isHbSuccessEvent], rfl⟩ h⟩
              cases ns <;>
                simp [step, heartbeat_thread_iter, heartbeat, hreg, handle_new_session]
  | monitorTick now ok =>
      exact ⟨fun h => by simp [isHbSuccessEvent] at h,
        fun _ => Or.inl (by simpa [step] using monitor_failures ⟨avail, ok⟩ now s)⟩
  | startPush now hid key email ok =>
      exact ⟨fun h => by simp [isHbSuccessEvent] at h,
        fun _ => Or.inl (by simpa [step] using start_push_failures ⟨avail, ok⟩ now hid key email s)⟩
  | endPush key ok =>
      exact ⟨fun h => by simp [isHbSuccessEvent] at h,
        fun _ => Or.inl (by simpa [step] using end_push_failures ⟨avail, ok⟩ key s)⟩
  | apiEnd ok =>
      exact ⟨fun h => by simp [isHbSuccessEvent] at h,
        fun _ => Or.inl (by simpa [step] using api_end_failures ⟨avail, ok⟩ s)⟩
  | relayOnReq ok =>
      exact ⟨fun h => by simp [isHbSuccessEvent] at h,
        fun _ => Or.inl (by simpa [step] using relay_on_failures ⟨avail, ok⟩ s)⟩
  | relayOffReq ok =>
      exact ⟨fun h => by simp [isHbSuccessEvent] at h,
        fun _ => Or.inl (by simpa [step] using relay_off_failures ⟨avail, ok⟩ s)⟩
  | pollStart ok =>
      exact ⟨fun h => by simp [isHbSuccessEvent] at h, fun _ => Or.inl (by simp [step])⟩
  | pollStop ok =>
      exact ⟨fun h => by simp [isHbSuccessEvent] at h, fun _ => Or.inl (by simp [step])⟩

theorem heartbeat_failures_monotonic_witness :
    (isHbSuccessEvent (Event.hbIter 7 (some none) none true) = true ∧
      ((⟨{ initState "a" with registered := true, heartbeat_failures := 3 },
        pollerInit⟩ : Sys)).1.registered = true →
      (((step true (Event.hbIter 7 (some none) none true)
          (⟨{ initState "a" with registered := true, heartbeat_failures := 3 },
            pollerInit⟩ : Sys)).1).1).heartbeat_failures = 0) ∧
    (¬(isHbSuccessEvent (Event.hbIter 7 (some none) none true) = true ∧
      ((⟨{ initState "a" with registered := true, heartbeat_failures := 3 },
        pollerInit⟩ : Sys)).1.registered = true) →
      (((step true (Event.hbIter 7 (some none) none true)
          (⟨{ initState "a" with registered := true, heartbeat_failures := 3 },
            pollerInit⟩ : Sys)).1).1).heartbeat_failures
        = ((⟨{ initState "a" with registered := true, heartbeat_failures := 3 },
            pollerInit⟩ : Sys)).1.heartbeat_failures ∨
      (((step true (Event.hbIter 7 (some none) none true)
          (⟨{ initState "a" with registered := true, heartbeat_failures := 3 },
            pollerInit⟩ : Sys)).1).1).heartbeat_failures
        = ((⟨{ initState "a" with registered := true, heartbeat_failures := 3 },
            pollerInit⟩ : Sys)).1.heartbeat_failures + 1) :=
  heartbeat_failures_monotonic true (Event.hbIter 7 (some none) none true)
    (⟨{ initState "a" with registered := true, heartbeat_failures := 3 }, pollerInit⟩ : Sys)

/-- Claim C1 (amended): in every state of the node reachable by heartbeat
iterations, push session-start and session-end calls, local end and relay
requests, timeout-monitor ticks and poll-fallback events, and in which
every GPIO write on a deenergize path returns normally, `relay_state =
true` implies `session_active = true` (invariant I1).  When a deenergize
write raises, the relay is left energized after the session ends: the
failure is only logged, not retried (see the counterexample). -/
theorem gate_safety_when_deenergize_succeeds (avail : Bool) (labId : String)
    (es : List Event)
    (h : ∀ e ∈ es, isNodeEndEvent e = true → eventWriteOk e = true) :
    ((run avail labId es).1).relay_state = true →
    ((run avail labId es).1).session_active = true :=
  (run_gateInv avail labId es h).1

theorem gate_safety_when_deenergize_succeeds_witness :
    ((run true "a"
        [Event.startPush 0 "a" (some "K") none true]).1).session_active = true :=
  gate_safety_when_deenergize_succeeds true "a"
    [Event.startPush 0 "a" (some "K") none true] (by decide) (by decide)

/-- Claim C1 counterexample: a push session-end whose deenergize GPIO write
raises leaves `relay_state = true` while `session_active = false`, so I1
does not hold in every reachable state as the claim says. -/
theorem gate_safety_failed_deenergize_violation :
    ((run true "a" [Event.startPush 0 "a" (some "K") none true,
        Event.endPush (some "K") false]).1).relay_state = true ∧
    ((run true "a" [Event.startPush 0 "a" (some "K") none true,
        Event.endPush (some "K") false]).1).session_active = false := by
  decide

/-- A concrete trace in which the node registers and then receives a
heartbeat-delivered session assignment whose payload lacks the
session_key field. -/
def keylessTrace : List Event :=
  [Event.hbIter 0 none (some 1) true,
   Event.hbIter 5 (some (some ⟨none, some "u"⟩)) none true]

/-- Claim C4: whenever `current_session_key` is `None`, `end_session`
leaves every field of the state unchanged and performs no deenergize call
and no Master notification, even with `session_active` true; such a state
is reachable through a heartbeat-delivered assignment with no session_key,
and a timeout-monitor tick then leaves the session active. -/
theorem end_session_none_key_frame (g : Gpio) (s : LabPiState)
    (h : s.current_session_key = none) :
    end_session g s = (s, []) ∧
    ((run true "a" keylessTrace).1).session_active = true ∧
    ((run true "a" keylessTrace).1).current_session_key = none ∧
    session_monitor_tick ⟨true, true⟩ 99999 ((run true "a" keylessTrace).1)
      = ((run true "a" keylessTrace).1, []) := by
  refine ⟨?_, by decide, by decide, by decide⟩
  unfold end_session
  rw [h]

theorem end_session_none_key_frame_witness :
    end_session ⟨true, true⟩ (initState "a") = (initState "a", []) ∧
    ((run true "a" keylessTrace).1).session_active = true ∧
    ((run true "a" keylessTrace).1).current_session_key = none ∧
    session_monitor_tick ⟨true, true⟩ 99999 ((run true "a" keylessTrace).1)
      = ((run true "a" keylessTrace).1, []) :=
  end_session_none_key_frame ⟨true, true⟩ (initState "a") rfl

/-- Claim C5: from any registered state with 4 accumulated heartbeat
failures, the 5th consecutive failure makes the same loop iteration drop
`registered` and call `register` before the next scheduled heartbeat; an
iteration with fewer accumulated failures does not call `register`; a
later successful heartbeat resets the failure counter to 0. -/
theorem heartbeat_failure_reregistration (avail ok1 ok2 ok3 : Bool)
    (n1 n2 n3 dbId : Nat) (s t : LabPiState)
    (hreg : s.registered = true) (hf : s.heartbeat_failures = 4)
    (htreg : t.registered = true) (htf : t.heartbeat_failures + 1 < 5) :
    (heartbeat_thread_iter ⟨avail, ok1⟩ n1 none none s).2
      = [Effect.hbPost, Effect.registerReq] ∧
    ((heartbeat_thread_iter ⟨avail, ok1⟩ n1 none none s).1).registered = false ∧
    ((heartbeat_thread_iter ⟨avail, ok1⟩ n1 none none s).1).heartbeat_failures = 5 ∧
    (heartbeat_thread_iter ⟨avail, ok2⟩ n2 none (some dbId)
        (heartbeat_thread_iter ⟨avail, ok1⟩ n1 none none s).1).2
      = [Effect.registerReq] ∧
    ((heartbeat_thread_iter ⟨avail, ok2⟩ n2 none (some dbId)
        (heartbeat_thread_iter ⟨avail, ok1⟩ n1 none none s).1).1).registered = true ∧
    ((heartbeat_thread_iter ⟨avail, ok3⟩ n3 (some none) none
        ((heartbeat_thread_iter ⟨avail, ok2⟩ n2 none (some dbId)
          (heartbeat_thread_iter ⟨avail, ok1⟩ n1 none none s).1).1)).1).heartbeat_failures
      = 0 ∧
    (heartbeat_thread_iter ⟨avail, ok1⟩ n1 none none t).2 = [Effect.hbPost] := by
  have h1 : heartbeat_thread_iter ⟨avail, ok1⟩ n1 none none s
      = ({ s with heartbeat_failures := 5, registered := false },
         [Effect.hbPost, Effect.registerReq]) := by
    simp [heartbeat_thread_iter, heartbeat, register, hreg, hf]
  have h2 : heartbeat_thread_iter ⟨avail, ok2⟩ n2 none (some dbId)
        ({ s with heartbeat_failures := 5, registered := false })
      = ({ s with heartbeat_failures := 5, registered := true,
                  lab_pi_db_id := some dbId, registered_at := some n2 },
         [Effect.registerReq]) := by
    simp [heartbeat_thread_iter, register]
  have hlt : ¬ (5 ≤ t.heartbeat_failures + 1) := by omega
  rw [h1]
  refine ⟨rfl, rfl, rfl, ?_, ?_, ?_, ?_⟩
  · rw [h2]
  · rw [h2]
  · rw [h2]
    simp [heartbeat_thread_iter, heartbeat]
  · simp [heartbeat_thread_iter, heartbeat, htreg, hlt]

theorem heartbeat_failure_reregistration_witness :
    (heartbeat_thread_iter ⟨true, true⟩ 1 none none
        { initState "a" with registered := true, heartbeat_failures := 4 }).2
      = [Effect.hbPost, Effect.registerReq] ∧
    ((heartbeat_thread_iter ⟨true, true⟩ 1 none none
        { initState "a" with registered := true, heartbeat_failures := 4 }).1).registered
      = false ∧
    ((heartbeat_thread_iter ⟨true, true⟩ 1 none none
        { initState "a" with registered := true, heartbeat_failures := 4 }).1).heartbeat_failures
      = 5 ∧
    (heartbeat_thread_iter ⟨true, true⟩ 2 none (some 9)
        (heartbeat_thread_iter ⟨true, true⟩ 1 none none
          { initState "a" with registered := true, heartbeat_failures := 4 }).1).2
      = [Effect.registerReq] ∧
    ((heartbeat_thread_iter ⟨true, true⟩ 2 none (some 9)
        (heartbeat_thread_iter ⟨true, true⟩ 1 none none
          { initState "a" with registered := true, heartbeat_failures := 4 }).1).1).registered
      = true ∧
    ((heartbeat_thread_iter ⟨true, true⟩ 3 (some none) none
        ((heartbeat_thread_iter ⟨true, true⟩ 2 none (some 9)
          (heartbeat_thread_iter ⟨true, true⟩ 1 none none
            { initState "a" with registered := true, heartbeat_failures := 4 }).1).1)).1).heartbeat_failures
      = 0 ∧
    (heartbeat_thread_iter ⟨true, true⟩ 1 none none
        { initState "a" with registered := true }).2 = [Effect.hbPost] :=
  heartbeat_failure_reregistration true true true true 1 2 3 9
    { initState "a" with registered := true, heartbeat_failures := 4 }
    { initState "a" with registered := true } rfl rfl rfl (by decide)

/-- Claim C2 (amended): calling the end helper (`end_session`, used by the
local end endpoint and the timeout monitor) twice with a session key set
makes exactly one deenergize attempt; the second call observes the cleared
key and is a strict no-op, and the final state has `session_active =
false`.  The Master-push session-end endpoint is different: it attempts a
deenergize on every invocation (see the counterexample). -/
theorem end_session_eq_none (g : Gpio) (s : LabPiState)
    (hk : s.current_session_key = none) : end_session g s = (s, []) := by
  unfold end_session
  rw [hk]

theorem end_session_eq_some (g : Gpio) (s : LabPiState) (k : String)
    (hk : s.current_session_key = some k) :
    end_session g s
      = ({ (power_off_hardware g s).1 with
            session_active := false, current_session_key := none,
            session_start_time := none, user_email := none },
         Effect.masterEndNotify k :: (power_off_hardware g s).2) := by
  unfold end_session
  rw [hk]

theorem end_session_idempotent (g : Gpio) (s : LabPiState) (k : String)
    (hk : s.current_session_key = some k) (hav : g.available = true) :
    deenergizeAttempts ((end_session g s).2
        ++ (end_session g (end_session g s).1).2) = 1 ∧
    end_session g (end_session g s).1 = ((end_session g s).1, []) ∧
    ((end_session g s).1).session_active = false ∧
    ((end_session g s).1).current_session_key = none := by
  rcases g with ⟨av, ok⟩
  subst hav
  have e1 := end_session_eq_some ⟨true, ok⟩ s k hk
  have hpo : (power_off_hardware ⟨true, ok⟩ s).2 = [Effect.pinWrite 0] := by
    unfold power_off_hardware
    cases ok <;> rfl
  have hkey : ((end_session ⟨true, ok⟩ s).1).current_session_key = none := by
    rw [e1]
  have hact : ((end_session ⟨true, ok⟩ s).1).session_active = false := by
    rw [e1]
  have e2 := end_session_eq_none ⟨true, ok⟩ ((end_session ⟨true, ok⟩ s).1) hkey
  refine ⟨?_, e2, hact, hkey⟩
  rw [e2]
  simp only [List.append_nil]
  rw [e1]
  simp only [hpo]
  rfl

theorem end_session_idempotent_witness :
    deenergizeAttempts
        ((end_session ⟨true, true⟩
            { initState "a" with session_active := true,
                                 current_session_key := some "K" }).2
          ++ (end_session ⟨true, true⟩
              (end_session ⟨true, true⟩
                { initState "a" with session_active := true,
                                     current_session_key := some "K" }).1).2) = 1 ∧
    end_session ⟨true, true⟩
        (end_session ⟨true, true⟩
          { initState "a" with session_active := true,
                               current_session_key := some "K" }).1
      = ((end_session ⟨true, true⟩
          { initState "a" with session_active := true,
                               current_session_key := some "K" }).1, []) ∧
    ((end_session ⟨true, true⟩
        { initState "a" with session_active := true,
                             current_session_key := some "K" }).1).session_active
      = false ∧
    ((end_session ⟨true, true⟩
        { initState "a" with session_active := true,
                             current_session_key := some "K" }).1).current_session_key
      = none :=
  end_session_idempotent ⟨true, true⟩
    { initState "a" with session_active := true, current_session_key := some "K" }
    "K" rfl rfl

/-- Claim C2 counterexample: two consecutive deliveries of the Master-push
session-end call make two deenergize attempts (two level-0 pin writes),
not exactly one, although the claim names this entry point. -/
theorem push_end_double_deenergize :
    deenergizeAttempts
        ((lab_pi_session_end ⟨true, true⟩ (some "K")
            (lab_pi_session_start ⟨true, true⟩ 0 "a" (some "K") none
              (initState "a")).1).2.1
          ++ (lab_pi_session_end ⟨true, true⟩ (some "K")
              (lab_pi_session_end ⟨true, true⟩ (some "K")
                (lab_pi_session_start ⟨true, true⟩ 0 "a" (some "K") none
                  (initState "a")).1).1).2.1) = 2 ∧
    (2 : Nat) ≠ 1 := by
  decide

/-- Claim C3 (amended): the poll-fallback process and the push surface do
not share start/end primitives: the push path energizes the relay by
writing level 1 and deenergizes by writing level 0, while the poll
fallback energizes by writing level 0 and deenergizes by writing level 1,
and the poller keeps its own state, never touching `LabPiState`. -/
theorem control_paths_polarity (g : Gpio) (s : LabPiState) (p : PollerState)
    (hav : g.available = true) (hok : g.writeOk = true)
    (hrun : p.hardware_running = false) :
    (power_on_hardware g s).2 = [Effect.pinWrite 1] ∧
    (power_off_hardware g s).2 = [Effect.pinWrite 0] ∧
    (SessionPoller.start_hardware g p).2 = [Effect.pinWrite 0] ∧
    (SessionPoller.stop_hardware g { p with hardware_running := true }).2
      = [Effect.pinWrite 1] := by
  rcases g with ⟨av, ok⟩
  subst hav
  subst hok
  refine ⟨rfl, rfl, ?_, rfl⟩
  unfold SessionPoller.start_hardware
  rw [hrun]
  rfl

theorem control_paths_polarity_witness :
    (power_on_hardware ⟨true, true⟩ (initState "a")).2 = [Effect.pinWrite 1] ∧
    (power_off_hardware ⟨true, true⟩ (initState "a")).2 = [Effect.pinWrite 0] ∧
    (SessionPoller.start_hardware ⟨true, true⟩ pollerInit).2 = [Effect.pinWrite 0] ∧
    (SessionPoller.stop_hardware ⟨true, true⟩
        { pollerInit with hardware_running := true }).2 = [Effect.pinWrite 1] :=
  control_paths_polarity ⟨true, true⟩ (initState "a") pollerInit rfl rfl rfl

/-- Claim C3 counterexample: starting a session writes level 1 to the pin
on the push path but level 0 on the poll-fallback path, so the two control
paths do not perform the same pin write for a session start. -/
theorem control_paths_pin_write_mismatch :
    (power_on_hardware ⟨true, true⟩ (initState "a")).2 = [Effect.pinWrite 1] ∧
    (SessionPoller.start_hardware ⟨true, true⟩ pollerInit).2 = [Effect.pinWrite 0] ∧
    ([Effect.pinWrite 1] : List Effect) ≠ [Effect.pinWrite 0] := by
  decide

/-- Claim C6 (amended): an authorized session-start reports success and
sets `session_active` true with the posted key and start time installed
regardless of driver errors; `relay_state` is recorded true exactly when
lgpio is present and the energize write returns normally, and otherwise
keeps its prior value; `hardware_ready` is never written by this path (it
keeps its prior value, so it stays false from initialization even when the
energize call succeeds). -/
theorem session_start_effects (g : Gpio) (now : Nat) (hid : String)
    (key email : Option String) (s : LabPiState) (h : hid = s.lab_pi_id) :
    (lab_pi_session_start g now hid key email s).2.2 = ApiResult.ok ∧
    ((lab_pi_session_start g now hid key email s).1).session_active = true ∧
    ((lab_pi_session_start g now hid key email s).1).current_session_key = key ∧
    ((lab_pi_session_start g now hid key email s).1).session_start_time = some now ∧
    ((lab_pi_session_start g now hid key email s).1).hardware_ready
      = s.hardware_ready ∧
    ((lab_pi_session_start g now hid key email s).1).relay_state
      = (if g.available && g.writeOk then true else s.relay_state) := by
  rcases g with ⟨av, ok⟩
  subst h
  unfold lab_pi_session_start power_on_hardware
  cases av <;> cases ok <;> simp

theorem session_start_effects_witness :
    (lab_pi_session_start ⟨true, false⟩ 3 "a" (some "K") (some "u")
        (initState "a")).2.2 = ApiResult.ok ∧
    ((lab_pi_session_start ⟨true, false⟩ 3 "a" (some "K") (some "u")
        (initState "a")).1).session_active = true ∧
    ((lab_pi_session_start ⟨true, false⟩ 3 "a" (some "K") (some "u")
        (initState "a")).1).current_session_key = some "K" ∧
    ((lab_pi_session_start ⟨true, false⟩ 3 "a" (some "K") (some "u")
        (initState "a")).1).session_start_time = some 3 ∧
    ((lab_pi_session_start ⟨true, false⟩ 3 "a" (some "K") (some "u")
        (initState "a")).1).hardware_ready = (initState "a").hardware_ready ∧
    ((lab_pi_session_start ⟨true, false⟩ 3 "a" (some "K") (some "u")
        (initState "a")).1).relay_state
      = (if (true : Bool) && false then true else (initState "a").relay_state) :=
  session_start_effects ⟨true, false⟩ 3 "a" (some "K") (some "u") (initState "a") rfl

/-- Claim C6 counterexample: after an authorized session-start whose
energize call returns without a driver error (the relay write succeeds and
`relay_state` is recorded true), `hardware_ready` is still false — the
code never sets it, so it is not set true when the energize call
succeeds. -/
theorem session_start_leaves_hardware_ready_false :
    ((lab_pi_session_start ⟨true, true⟩ 0 "a" (some "K") (some "u")
        (initState "a")).1).relay_state = true ∧
    ((lab_pi_session_start ⟨true, true⟩ 0 "a" (some "K") (some "u")
        (initState "a")).1).session_active = true ∧
    ((lab_pi_session_start ⟨true, true⟩ 0 "a" (some "K") (some "u")
        (initState "a")).1).hardware_ready = false := by
  decide

/-- Claim C7 (amended): with no active session the local end endpoint
(`/api/session/end`) reports a 400 no-op failure, changes no field and
makes no deenergize call; the Master-push session-end endpoint instead
reports success, clears the session fields and still attempts a deenergize
(see the counterexample), so the claim holds for the local entry point
only. -/
theorem end_inactive_local_noop (g : Gpio) (s : LabPiState) (k : Option String)
    (h : s.session_active = false) :
    api_end_session g s = (s, [], ApiResult.err 400) ∧
    (lab_pi_session_end g k s).2.2 = ApiResult.ok ∧
    ((lab_pi_session_end g k s).1).session_active = false ∧
    ((lab_pi_session_end g k s).1).current_session_key = none ∧
    ((lab_pi_session_end g k s).1).session_start_time = none ∧
    ((lab_pi_session_end g k s).1).user_email = none ∧
    (g.available = true → (lab_pi_session_end g k s).2.1 = [Effect.pinWrite 0]) := by
  rcases g with ⟨av, ok⟩
  constructor
  · unfold api_end_session
    rw [h]
    rfl
  · unfold lab_pi_session_end power_off_hardware
    cases av <;> cases ok <;> simp

theorem end_inactive_local_noop_witness :
    api_end_session ⟨true, true⟩ (initState "a")
      = (initState "a", [], ApiResult.err 400) ∧
    (lab_pi_session_end ⟨true, true⟩ none (initState "a")).2.2 = ApiResult.ok ∧
    ((lab_pi_session_end ⟨true, true⟩ none (initState "a")).1).session_active
      = false ∧
    ((lab_pi_session_end ⟨true, true⟩ none (initState "a")).1).current_session_key
      = none ∧
    ((lab_pi_session_end ⟨true, true⟩ none (initState "a")).1).session_start_time
      = none ∧
    ((lab_pi_session_end ⟨true, true⟩ none (initState "a")).1).user_email = none ∧
    ((true : Bool) = true →
      (lab_pi_session_end ⟨true, true⟩ none (initState "a")).2.1
        = [Effect.pinWrite 0]) :=
  end_inactive_local_noop ⟨true, true⟩ (initState "a") none rfl

/-- Claim C7 counterexample: the Master-push session-end endpoint, invoked
with no session active, answers success (not a no-op failure) and makes a
deenergize attempt, contradicting the claim for that entry point. -/
theorem push_end_inactive_returns_success :
    (lab_pi_session_end ⟨true, true⟩ none (initState "a")).2.2 = ApiResult.ok ∧
    ApiResult.ok ≠ ApiResult.err 400 ∧
    (lab_pi_session_end ⟨true, true⟩ none (initState "a")).2.1
      = [Effect.pinWrite 0] := by
  decide

/-- Claim C8 (amended): a timeout-monitor tick with an active session, a
start time more than 60*60 seconds in the past, and a non-None session key
ends the session with no Master round trip required: `session_active`
becomes false, the session fields are cleared, the Master is notified
best-effort, a deenergize write is attempted when lgpio is present, and
`relay_state` becomes false when that write returns normally.  With a None
session key the tick is a no-op and the session stays active (see the
counterexample). -/
theorem timeout_monitor_ends_keyed_session (g : Gpio) (now t0 : Nat) (k : String)
    (s : LabPiState) (hact : s.session_active = true)
    (ht : s.session_start_time = some t0) (hk : s.current_session_key = some k)
    (hel : 60 * 60 < now - t0) :
    ((session_monitor_tick g now s).1).session_active = false ∧
    ((session_monitor_tick g now s).1).current_session_key = none ∧
    ((session_monitor_tick g now s).1).session_start_time = none ∧
    ((session_monitor_tick g now s).1).user_email = none ∧
    Effect.masterEndNotify k ∈ (session_monitor_tick g now s).2 ∧
    (g.available = true → Effect.pinWrite 0 ∈ (session_monitor_tick g now s).2) ∧
    (g.available = true → g.writeOk = true →
      ((session_monitor_tick g now s).1).relay_state = false) := by
  rcases g with ⟨av, ok⟩
  have hmon : session_monitor_tick ⟨av, ok⟩ now s = end_session ⟨av, ok⟩ s := by
    unfold session_monitor_tick
    rw [if_pos ⟨hact, by rw [ht]; rfl⟩]
    rw [ht]
    simp only [hel, if_true]
  rw [hmon]
  unfold end_session power_off_hardware
  rw [hk]
  cases av <;> cases ok <;> simp

theorem timeout_monitor_ends_keyed_session_witness :
    ((session_monitor_tick ⟨true, true⟩ 3700
        { initState "a" with session_active := true,
                             session_start_time := some 0,
                             current_session_key := some "K" }).1).session_active
      = false ∧
    ((session_monitor_tick ⟨true, true⟩ 3700
        { initState "a" with session_active := true,
                             session_start_time := some 0,
                             current_session_key := some "K" }).1).current_session_key
      = none ∧
    ((session_monitor_tick ⟨true, true⟩ 3700
        { initState "a" with session_active := true,
                             session_start_time := some 0,
                             current_session_key := some "K" }).1).session_start_time
      = none ∧
    ((session_monitor_tick ⟨true, true⟩ 3700
        { initState "a" with session_active := true,
                             session_start_time := some 0,
                             current_session_key := some "K" }).1).user_email
      = none ∧
    Effect.masterEndNotify "K" ∈ (session_monitor_tick ⟨true, true⟩ 3700
        { initState "a" with session_active := true,
                             session_start_time := some 0,
                             current_session_key := some "K" }).2 ∧
    ((true : Bool) = true → Effect.pinWrite 0 ∈ (session_monitor_tick ⟨true, true⟩ 3700
        { initState "a" with session_active := true,
                             session_start_time := some 0,
                             current_session_key := some "K" }).2) ∧
    ((true : Bool) = true → (true : Bool) = true →
      ((session_monitor_tick ⟨true, true⟩ 3700
        { initState "a" with session_active := true,
                             session_start_time := some 0,
                             current_session_key := some "K" }).1).relay_state
        = false) :=
  timeout_monitor_ends_keyed_session ⟨true, true⟩ 3700 0 "K"
    { initState "a" with session_active := true, session_start_time := some 0,
                         current_session_key := some "K" }
    rfl rfl rfl (by decide)

/-- Claim C8 counterexample: a reachable state with an active, expired
session (started at time 5, monitor tick at 99999) whose session key is
None is not ended by the monitor tick: the session stays active, because
the shared end logic does nothing when the key is None. -/
theorem timeout_monitor_stuck_none_key :
    ((run true "a" keylessTrace).1).session_active = true ∧
    ((run true "a" keylessTrace).1).session_start_time = some 5 ∧
    60 * 60 < 99999 - 5 ∧
    ((run true "a" (keylessTrace
        ++ [Event.monitorTick 99999 true])).1).session_active = true := by
  decide

/-- Twelve captured frames, two more than the queue capacity. -/
def audioFrames : List String :=
  ["a1", "a2", "a3", "a4", "a5", "a6", "a7", "a8", "a9", "b1", "b2", "b3"]

/-- Ten all-successful sender iterations. -/
def audioDrain : List Bool := List.replicate 10 true

/-- Sender iterations with one transport error. -/
def audioErr : List Bool := [true, false, true]

/-- Claim C9: with the queue at capacity 10 and the sender never draining,
the capture loop enqueues at most 10 frames — exactly the first 10, with
later frames silently discarded (`queue_put` is total: no block, no
raise); when the sender resumes, the buffered frames are dequeued in FIFO
order, and with all posts succeeding each buffered frame is posted exactly
once; with transport errors the posted frames are a subsequence of the
buffered ones, so no frame is ever posted twice. -/
theorem audio_backpressure_fifo (frames : List String)
    (drainOutcomes errOutcomes : List Bool)
    (hlen : drainOutcomes.length = (AudioCapture.capture_run frames).length)
    (hall : ∀ b ∈ drainOutcomes, b = true) :
    (AudioCapture.capture_run frames).length ≤ 10 ∧
    AudioCapture.capture_run frames = frames.take 10 ∧
    AudioCapture.send_run drainOutcomes (AudioCapture.capture_run frames, [])
      = ([], AudioCapture.capture_run frames) ∧
    ((AudioCapture.send_run errOutcomes
        (AudioCapture.capture_run frames, [])).2).Sublist
      (AudioCapture.capture_run frames) := by
  have hcap : AudioCapture.capture_run frames = frames.take 10 := by
    unfold AudioCapture.capture_run
    simpa using capture_foldl_take frames [] (by simp)
  refine ⟨?_, hcap, ?_, ?_⟩
  · rw [hcap]
    exact List.length_take_le 10 frames
  · have := send_run_drain (AudioCapture.capture_run frames) [] drainOutcomes hlen hall
    simpa using this
  · obtain ⟨p, hp, hs⟩ :=
      send_run_sublist errOutcomes (AudioCapture.capture_run frames) []
    rw [hp]
    simp only [List.nil_append]
    exact hs

theorem audio_backpressure_fifo_witness :
    (AudioCapture.capture_run audioFrames).length ≤ 10 ∧
    AudioCapture.capture_run audioFrames = audioFrames.take 10 ∧
    AudioCapture.send_run audioDrain (AudioCapture.capture_run audioFrames, [])
      = ([], AudioCapture.capture_run audioFrames) ∧
    ((AudioCapture.send_run audioErr
        (AudioCapture.capture_run audioFrames, [])).2).Sublist
      (AudioCapture.capture_run audioFrames) :=
  audio_backpressure_fifo audioFrames audioDrain audioErr (by decide) (by decide)

end RemoteLabPi

